import Mathlib

/-!
Shallow embedding of the browser-side recipe-management client:
the login, registration, recipe and ingredient page scripts.
Each page script is modelled as a pure state-transition function on an
explicit page-state record; the outcome of every fetch call is passed in
as an argument (an HTTP status with a parsed body, or a transport
failure standing for the catch branch).
-/

/-- Whitespace characters removed by the JavaScript trim applied to every
form input before validation. -/
def jsWhitespaceChar (c : Char) : Bool :=
  c = ' ' ∨ c = '\t' ∨ c = '\n' ∨ c = '\r' ∨ c = '\x0b' ∨ c = '\x0c'

/-- Model of JavaScript trim on a DOM input value: leading and trailing
whitespace removed. -/
def jsTrim (s : String) : String :=
  String.mk (((s.data.dropWhile fun c => jsWhitespaceChar c).reverse.dropWhile
    fun c => jsWhitespaceChar c).reverse)

/-- Model of JavaScript split with a single-character separator, on the
character list of the string: empty fields are preserved and the empty
string splits to one empty field. -/
def jsSplitChars (sep : Char) : List Char → List String
  | [] => [""]
  | c :: cs =>
    let rest := jsSplitChars sep cs
    if c = sep then "" :: rest
    else (String.mk [c] ++ rest.headD "") :: rest.tail

/-- Model of JavaScript split with a single-character separator. -/
def jsSplit (sep : Char) (s : String) : List String :=
  jsSplitChars sep s.data

/-- Storing a possibly-undefined JavaScript value with setItem coerces
undefined to the string "undefined". -/
def setItemCoerce (v : Option String) : String := v.getD "undefined"

/-- The browser sessionStorage slots the pages use: the auth-token key and
the is-admin key, each either absent or holding a string. -/
structure Store where
  authToken : Option String
  isAdmin : Option String
deriving DecidableEq

/-- A recipe record as produced by the backend JSON. -/
structure Recipe where
  id : Nat
  name : String
  instructions : String
  author : String
deriving DecidableEq

/-- An ingredient record as produced by the backend JSON. -/
structure Ingredient where
  id : Nat
  name : String
deriving DecidableEq

/-- Outcome of one fetch call: an HTTP response carrying a status code and
a parsed body, or a transport failure (the catch branch of the workflow). -/
inductive FetchResult (α : Type) where
  | resp (status : Nat) (body : α)
  | networkError
deriving DecidableEq

/-- Relative URL of the login page used by every redirect in the scripts. -/
def loginPagePath : String := "../login/login-page.html"

/-- Relative URL of the recipe page, the login success redirect target. -/
def recipePagePath : String := "../recipe/recipe-page.html"

example : jsTrim "  Pasta " = "Pasta" := by decide
example : jsTrim "   " = "" := by decide
example : jsSplit ' ' "" = [""] := by decide
example : jsSplit ' ' "tok123 true" = ["tok123", "true"] := by decide
example : jsSplit ' ' " a" = ["", "a"] := by decide

/-- State of the recipe page script: the shared sessionStorage, the
module-level recipes array, the form input values, the rendered list
container, the alert messages shown so far (in order), and the page the
browser was navigated to, if any. -/
structure RecipePageState where
  store : Store
  recipes : List Recipe
  addRecipeNameInput : String
  addRecipeInstructionsInput : String
  updateRecipeNameInput : String
  updateRecipeInstructionsInput : String
  deleteRecipeNameInput : String
  searchInput : String
  renderedList : List String
  alerts : List String
  navigatedTo : Option String
deriving DecidableEq

/-- refreshRecipeList of recipe-page.js: clear the list container and
re-render one row per recipe showing name and instructions. -/
def refreshRecipeList (st : RecipePageState) : RecipePageState :=
  { st with renderedList := st.recipes.map fun r => r.name ++ ": " ++ r.instructions }

/-- getRecipes of recipe-page.js: on an ok (2xx) response replace the
recipes array with the body and re-render; on 401 alert and navigate to
the login page; on any other status alert; on a transport error alert. -/
def getRecipes (st : RecipePageState) (r : FetchResult (List Recipe)) : RecipePageState :=
  match r with
  | .resp status body =>
    if 200 ≤ status ∧ status ≤ 299 then
      refreshRecipeList { st with recipes := body }
    else if status = 401 then
      { st with alerts := st.alerts ++ ["Unauthorized: Please login"],
                navigatedTo := some loginPagePath }
    else
      { st with alerts := st.alerts ++ ["Failed to fetch recipes"] }
  | .networkError => { st with alerts := st.alerts ++ ["Error fetching recipes"] }

/-- addRecipe of recipe-page.js: validate the trimmed inputs, POST the
recipe, and on 201 clear both inputs and run getRecipes on the follow-up
fetch outcome; on 401 alert; on any other status alert; on a transport
error alert. -/
def addRecipe (st : RecipePageState) (postResp : FetchResult Unit)
    (getResp : FetchResult (List Recipe)) : RecipePageState :=
  let name := jsTrim st.addRecipeNameInput
  let instructions := jsTrim st.addRecipeInstructionsInput
  if name = "" ∨ instructions = "" then
    { st with alerts := st.alerts ++ ["Please provide both recipe name and instructions"] }
  else
    match postResp with
    | .resp status _ =>
      if status = 201 then
        getRecipes { st with addRecipeNameInput := "", addRecipeInstructionsInput := "" } getResp
      else if status = 401 then
        { st with alerts := st.alerts ++ ["Unauthorized: Please login again"] }
      else
        { st with alerts := st.alerts ++ ["Failed to add recipe"] }
    | .networkError => { st with alerts := st.alerts ++ ["Error adding recipe"] }

/-- The name-keyed lookup inlined in updateRecipe and deleteRecipe: first
recipe in the array whose name field equals the given string exactly. -/
def findRecipeByName (rs : List Recipe) (name : String) : Option Recipe :=
  rs.find? fun r => r.name == name

/-- The JSON body of updateRecipe's PUT request: id, name and author are
copied from the resolved record, instructions is taken from the form. -/
def updateRequestBody (recipe : Recipe) (instructions : String) : Recipe :=
  { id := recipe.id, name := recipe.name, instructions := instructions,
    author := recipe.author }

/-- The PUT body updateRecipe sends for the given form state: none when
validation fails or the trimmed name resolves to no record. -/
def updateRecipeRequest (st : RecipePageState) : Option Recipe :=
  let name := jsTrim st.updateRecipeNameInput
  let instructions := jsTrim st.updateRecipeInstructionsInput
  if name = "" ∨ instructions = "" then none
  else (findRecipeByName st.recipes name).map fun recipe =>
    updateRequestBody recipe instructions

/-- updateRecipe of recipe-page.js: validate the trimmed inputs, resolve
the recipe by name, PUT the update, and on an ok response clear both
inputs and run getRecipes on the follow-up fetch outcome; on 401 alert;
on any other status alert; on a transport error alert. -/
def updateRecipe (st : RecipePageState) (putResp : FetchResult Unit)
    (getResp : FetchResult (List Recipe)) : RecipePageState :=
  let name := jsTrim st.updateRecipeNameInput
  let instructions := jsTrim st.updateRecipeInstructionsInput
  if name = "" ∨ instructions = "" then
    { st with alerts := st.alerts ++ ["Please provide both recipe name and new instructions"] }
  else
    match findRecipeByName st.recipes name with
    | none => { st with alerts := st.alerts ++ ["Recipe not found"] }
    | some _ =>
      match putResp with
      | .resp status _ =>
        if 200 ≤ status ∧ status ≤ 299 then
          getRecipes { st with updateRecipeNameInput := "",
                               updateRecipeInstructionsInput := "" } getResp
        else if status = 401 then
          { st with alerts := st.alerts ++ ["Unauthorized: Please login again"] }
        else
          { st with alerts := st.alerts ++ ["Failed to update recipe"] }
      | .networkError => { st with alerts := st.alerts ++ ["Error updating recipe"] }

/-- deleteRecipe of recipe-page.js: validate the trimmed name, resolve the
recipe, DELETE it, and on an ok response clear the input and run
getRecipes on the follow-up fetch outcome; on 401 alert; on 403 alert
with the admin message; on any other status alert; on a transport error
alert. -/
def deleteRecipe (st : RecipePageState) (delResp : FetchResult Unit)
    (getResp : FetchResult (List Recipe)) : RecipePageState :=
  let name := jsTrim st.deleteRecipeNameInput
  if name = "" then
    { st with alerts := st.alerts ++ ["Please provide a recipe name to delete"] }
  else
    match findRecipeByName st.recipes name with
    | none => { st with alerts := st.alerts ++ ["Recipe not found"] }
    | some _ =>
      match delResp with
      | .resp status _ =>
        if 200 ≤ status ∧ status ≤ 299 then
          getRecipes { st with deleteRecipeNameInput := "" } getResp
        else if status = 401 then
          { st with alerts := st.alerts ++ ["Unauthorized: Please login again"] }
        else if status = 403 then
          { st with alerts := st.alerts ++ ["Forbidden: Admin access required"] }
        else
          { st with alerts := st.alerts ++ ["Failed to delete recipe"] }
      | .networkError => { st with alerts := st.alerts ++ ["Error deleting recipe"] }

/-- searchRecipes of recipe-page.js: with an empty trimmed search term it
delegates to getRecipes; otherwise, on an ok response it replaces the
recipes array with the body and re-renders, on 404 it replaces the array
with the empty list and re-renders with no message, on any other status
it alerts, and on a transport error it alerts. -/
def searchRecipes (st : RecipePageState) (searchResp : FetchResult (List Recipe))
    (getResp : FetchResult (List Recipe)) : RecipePageState :=
  let searchTerm := jsTrim st.searchInput
  if searchTerm = "" then
    getRecipes st getResp
  else
    match searchResp with
    | .resp status body =>
      if 200 ≤ status ∧ status ≤ 299 then
        refreshRecipeList { st with recipes := body }
      else if status = 404 then
        refreshRecipeList { st with recipes := [] }
      else
        { st with alerts := st.alerts ++ ["Error searching recipes"] }
    | .networkError => { st with alerts := st.alerts ++ ["Failed to search recipes"] }

/-- processLogout of recipe-page.js: on an ok response remove both
sessionStorage keys and navigate to the login page; on any other status
alert; on a transport error alert. -/
def processLogout (st : RecipePageState) (r : FetchResult Unit) : RecipePageState :=
  match r with
  | .resp status _ =>
    if 200 ≤ status ∧ status ≤ 299 then
      { st with store := { authToken := none, isAdmin := none },
                navigatedTo := some loginPagePath }
    else
      { st with alerts := st.alerts ++ ["Logout failed"] }
  | .networkError => { st with alerts := st.alerts ++ ["Error during logout"] }

/-- State of the ingredient page script: the shared sessionStorage, the
module-level ingredients array, the two form inputs, the rendered list
container, the alerts shown so far, and any navigation performed. -/
structure IngredientPageState where
  store : Store
  ingredients : List Ingredient
  addIngredientNameInput : String
  deleteIngredientNameInput : String
  renderedList : List String
  alerts : List String
  navigatedTo : Option String
deriving DecidableEq

/-- refreshIngredientList of the ingredient page script: clear the list
container and re-render one row per ingredient showing its name. -/
def refreshIngredientList (st : IngredientPageState) : IngredientPageState :=
  { st with renderedList := st.ingredients.map fun i => i.name }

/-- getIngredients of the ingredient page script: on an ok response
replace the ingredients array with the body and re-render; on 401 alert
and navigate to the login page; on any other status alert; on a
transport error alert. -/
def getIngredients (st : IngredientPageState)
    (r : FetchResult (List Ingredient)) : IngredientPageState :=
  match r with
  | .resp status body =>
    if 200 ≤ status ∧ status ≤ 299 then
      refreshIngredientList { st with ingredients := body }
    else if status = 401 then
      { st with alerts := st.alerts ++ ["Unauthorized: Please login"],
                navigatedTo := some loginPagePath }
    else
      { st with alerts := st.alerts ++ ["Failed to fetch ingredients"] }
  | .networkError => { st with alerts := st.alerts ++ ["Error fetching ingredients"] }

/-- addIngredient of the ingredient page script: validate the trimmed
name, POST it, and on 201 clear the input, run getIngredients on the
follow-up fetch outcome and re-render; on 401 alert; on 403 alert with
the admin message; on any other status alert; on a transport error
alert. -/
def addIngredient (st : IngredientPageState) (postResp : FetchResult Unit)
    (getResp : FetchResult (List Ingredient)) : IngredientPageState :=
  let ingredientName := jsTrim st.addIngredientNameInput
  if ingredientName = "" then
    { st with alerts := st.alerts ++ ["Please enter an ingredient name"] }
  else
    match postResp with
    | .resp status _ =>
      if status = 201 then
        refreshIngredientList
          (getIngredients { st with addIngredientNameInput := "" } getResp)
      else if status = 401 then
        { st with alerts := st.alerts ++ ["Unauthorized: Please login again"] }
      else if status = 403 then
        { st with alerts := st.alerts ++ ["Forbidden: Admin access required"] }
      else
        { st with alerts := st.alerts ++ ["Failed to add ingredient"] }
    | .networkError => { st with alerts := st.alerts ++ ["Error adding ingredient"] }

/-- The name-keyed lookup inlined in deleteIngredient: first ingredient in
the array whose name field equals the given string exactly. -/
def findIngredientByName (xs : List Ingredient) (name : String) : Option Ingredient :=
  xs.find? fun i => i.name == name

/-- deleteIngredient of the ingredient page script: validate the trimmed
name, resolve the ingredient, DELETE it, and on 204 or 200 clear the
input, run getIngredients on the follow-up fetch outcome and re-render;
on 401 alert; on 403 alert with the admin message; on 404 alert not
found; on any other status alert; on a transport error alert. -/
def deleteIngredient (st : IngredientPageState) (delResp : FetchResult Unit)
    (getResp : FetchResult (List Ingredient)) : IngredientPageState :=
  let ingredientName := jsTrim st.deleteIngredientNameInput
  if ingredientName = "" then
    { st with alerts := st.alerts ++ ["Please enter an ingredient name to delete"] }
  else
    match findIngredientByName st.ingredients ingredientName with
    | none => { st with alerts := st.alerts ++ ["Ingredient not found"] }
    | some _ =>
      match delResp with
      | .resp status _ =>
        if status = 204 ∨ status = 200 then
          refreshIngredientList
            (getIngredients { st with deleteIngredientNameInput := "" } getResp)
        else if status = 401 then
          { st with alerts := st.alerts ++ ["Unauthorized: Please login again"] }
        else if status = 403 then
          { st with alerts := st.alerts ++ ["Forbidden: Admin access required"] }
        else if status = 404 then
          { st with alerts := st.alerts ++ ["Ingredient not found"] }
        else
          { st with alerts := st.alerts ++ ["Failed to delete ingredient"] }
      | .networkError => { st with alerts := st.alerts ++ ["Error deleting ingredient"] }

/-- State of the login page script: the shared sessionStorage, the two
form inputs, whether the logout button was made visible, the alerts
shown so far, and any navigation performed. -/
structure LoginPageState where
  store : Store
  usernameInput : String
  passwordInput : String
  logoutButtonVisible : Bool
  alerts : List String
  navigatedTo : Option String
deriving DecidableEq

/-- processLogin of login-page.js: validate the trimmed inputs, POST the
credentials, and on 200 split the response text on a space, store the
first field under auth-token and the second under is-admin, show the
logout button and navigate to the recipe page; on 401 alert; on any
other status alert; on a transport error alert. -/
def processLogin (st : LoginPageState) (r : FetchResult String) : LoginPageState :=
  let username := jsTrim st.usernameInput
  let password := jsTrim st.passwordInput
  if username = "" ∨ password = "" then
    { st with alerts := st.alerts ++ ["Please enter both username and password"] }
  else
    match r with
    | .resp status body =>
      if status = 200 then
        let parts := jsSplit ' ' body
        { st with store := { authToken := some (setItemCoerce parts.head?),
                             isAdmin := some (setItemCoerce parts[1]?) },
                  logoutButtonVisible := true,
                  navigatedTo := some recipePagePath }
      else if status = 401 then
        { st with alerts := st.alerts ++ ["Incorrect login!"] }
      else
        { st with alerts := st.alerts ++ ["Unknown issue!"] }
    | .networkError =>
      { st with alerts := st.alerts ++ ["Network error occurred. Please try again."] }

/-- State of the registration page script: the four form inputs, the
alerts shown so far, and any navigation performed. -/
structure RegisterPageState where
  usernameInput : String
  emailInput : String
  passwordInput : String
  repeatPasswordInput : String
  alerts : List String
  navigatedTo : Option String
deriving DecidableEq

/-- processRegistration of register-page.js: validate that all four
trimmed inputs are non-empty and the passwords match, POST the
registration, and on 201 navigate to the login page; on 409 alert that
the user or email already exists; on any other status alert; on a
transport error alert. -/
def processRegistration (st : RegisterPageState) (r : FetchResult Unit) : RegisterPageState :=
  let username := jsTrim st.usernameInput
  let email := jsTrim st.emailInput
  let password := jsTrim st.passwordInput
  let repeatPassword := jsTrim st.repeatPasswordInput
  if username = "" ∨ email = "" ∨ password = "" ∨ repeatPassword = "" then
    { st with alerts := st.alerts ++ ["Please fill in all fields"] }
  else if password ≠ repeatPassword then
    { st with alerts := st.alerts ++ ["Passwords do not match"] }
  else
    match r with
    | .resp status _ =>
      if status = 201 then
        { st with navigatedTo := some loginPagePath }
      else if status = 409 then
        { st with alerts := st.alerts ++ ["User or email already exists"] }
      else
        { st with alerts := st.alerts ++ ["Registration error. Please try again."] }
    | .networkError =>
      { st with alerts := st.alerts ++ ["An error occurred during registration. Please try again."] }

/-- The pair of setItem calls in processLogin's 200 branch, as the Session
Store setSession operation. -/
def setSession (s : Store) (token isAdminFlag : String) : Store :=
  { s with authToken := some token, isAdmin := some isAdminFlag }

/-- Reading the auth-token key with getItem. -/
def getToken (s : Store) : Option String := s.authToken

/-- The is-admin check on recipe page load: the stored flag must be
exactly the literal string true. -/
def isAdminFlagSet (s : Store) : Bool := s.isAdmin == some "true"

/-- The pair of removeItem calls in processLogout's success branch, as the
Session Store clearSession operation. -/
def clearSession (s : Store) : Store := { s with authToken := none, isAdmin := none }

/-- The seven result variants of the REST Client classification. -/
inductive RestResult where
  | success (status : Nat)
  | unauthorized
  | forbidden
  | notFound
  | conflict
  | genericFailure (status : Nat)
  | networkError
deriving DecidableEq

/-- Modelled from the spec: the REST Client status-code classification of
section 4.2 (2xx to Success, 401 Unauthorized, 403 Forbidden, 404
NotFound, 409 Conflict, any other status GenericFailure, and
NetworkError only for transport failures). The source has no single REST
client function: each page script inlines this branching per workflow. -/
def classifyStatus (status : Nat) : RestResult :=
  if 200 ≤ status ∧ status ≤ 299 then .success status
  else if status = 401 then .unauthorized
  else if status = 403 then .forbidden
  else if status = 404 then .notFound
  else if status = 409 then .conflict
  else .genericFailure status

/-- A sample authenticated recipe page state used to evaluate concrete runs. -/
def sampleRecipeState : RecipePageState :=
  { store := { authToken := some "tok", isAdmin := some "true" },
    recipes := [⟨1, "Pasta", "Boil water", "alice"⟩],
    addRecipeNameInput := "Soup",
    addRecipeInstructionsInput := "Simmer",
    updateRecipeNameInput := "Pasta",
    updateRecipeInstructionsInput := "Boil longer",
    deleteRecipeNameInput := "Pasta",
    searchInput := "  ",
    renderedList := [], alerts := [], navigatedTo := none }

/-- A sample authenticated ingredient page state used to evaluate concrete runs. -/
def sampleIngredientState : IngredientPageState :=
  { store := { authToken := some "tok", isAdmin := some "true" },
    ingredients := [⟨1, "Salt"⟩],
    addIngredientNameInput := "Pepper",
    deleteIngredientNameInput := "Salt",
    renderedList := [], alerts := [], navigatedTo := none }

/-- A sample anonymous login page state with filled-in credentials. -/
def sampleLoginState : LoginPageState :=
  { store := { authToken := none, isAdmin := none },
    usernameInput := "alice", passwordInput := "pw",
    logoutButtonVisible := false, alerts := [], navigatedTo := none }

/-- A sample registration page state with matching passwords. -/
def sampleRegisterState : RegisterPageState :=
  { usernameInput := "alice", emailInput := "alice@mail.test", passwordInput := "pw",
    repeatPasswordInput := "pw", alerts := [], navigatedTo := none }

theorem addRecipe_invalid_alert (st : RecipePageState) (post : FetchResult Unit)
    (g : FetchResult (List Recipe))
    (h : jsTrim st.addRecipeNameInput = "" ∨ jsTrim st.addRecipeInstructionsInput = "") :
    addRecipe st post g =
      { st with alerts := st.alerts ++ ["Please provide both recipe name and instructions"] } := by
  unfold addRecipe
  rcases h with h | h <;> simp [h]

theorem addRecipe_401_alert (st : RecipePageState) (g : FetchResult (List Recipe))
    (hn : jsTrim st.addRecipeNameInput ≠ "") (hi : jsTrim st.addRecipeInstructionsInput ≠ "") :
    addRecipe st (.resp 401 ()) g =
      { st with alerts := st.alerts ++ ["Unauthorized: Please login again"] } := by
  unfold addRecipe
  simp [hn, hi]

theorem addRecipe_other_alert (st : RecipePageState) (g : FetchResult (List Recipe)) (s : Nat)
    (hn : jsTrim st.addRecipeNameInput ≠ "") (hi : jsTrim st.addRecipeInstructionsInput ≠ "")
    (h1 : s ≠ 201) (h2 : s ≠ 401) :
    addRecipe st (.resp s ()) g =
      { st with alerts := st.alerts ++ ["Failed to add recipe"] } := by
  unfold addRecipe
  simp [hn, hi, h1, h2]

theorem addRecipe_network_alert (st : RecipePageState) (g : FetchResult (List Recipe))
    (hn : jsTrim st.addRecipeNameInput ≠ "") (hi : jsTrim st.addRecipeInstructionsInput ≠ "") :
    addRecipe st .networkError g =
      { st with alerts := st.alerts ++ ["Error adding recipe"] } := by
  unfold addRecipe
  simp [hn, hi]

theorem updateRecipe_invalid_alert (st : RecipePageState) (put : FetchResult Unit)
    (g : FetchResult (List Recipe))
    (h : jsTrim st.updateRecipeNameInput = "" ∨ jsTrim st.updateRecipeInstructionsInput = "") :
    updateRecipe st put g =
      { st with alerts := st.alerts ++ ["Please provide both recipe name and new instructions"] } := by
  unfold updateRecipe
  rcases h with h | h <;> simp [h]

theorem updateRecipe_notfound_alert (st : RecipePageState) (put : FetchResult Unit)
    (g : FetchResult (List Recipe))
    (hn : jsTrim st.updateRecipeNameInput ≠ "") (hi : jsTrim st.updateRecipeInstructionsInput ≠ "")
    (hf : findRecipeByName st.recipes (jsTrim st.updateRecipeNameInput) = none) :
    updateRecipe st put g = { st with alerts := st.alerts ++ ["Recipe not found"] } := by
  unfold updateRecipe
  simp [hn, hi, hf]

theorem updateRecipe_401_alert (st : RecipePageState) (g : FetchResult (List Recipe)) (r : Recipe)
    (hn : jsTrim st.updateRecipeNameInput ≠ "") (hi : jsTrim st.updateRecipeInstructionsInput ≠ "")
    (hf : findRecipeByName st.recipes (jsTrim st.updateRecipeNameInput) = some r) :
    updateRecipe st (.resp 401 ()) g =
      { st with alerts := st.alerts ++ ["Unauthorized: Please login again"] } := by
  unfold updateRecipe
  simp [hn, hi, hf]

theorem updateRecipe_other_alert (st : RecipePageState) (g : FetchResult (List Recipe))
    (r : Recipe) (s : Nat)
    (hn : jsTrim st.updateRecipeNameInput ≠ "") (hi : jsTrim st.updateRecipeInstructionsInput ≠ "")
    (hf : findRecipeByName st.recipes (jsTrim st.updateRecipeNameInput) = some r)
    (h1 : ¬(200 ≤ s ∧ s ≤ 299)) (h2 : s ≠ 401) :
    updateRecipe st (.resp s ()) g =
      { st with alerts := st.alerts ++ ["Failed to update recipe"] } := by
  unfold updateRecipe
  simp [hn, hi, hf, h1, h2]

theorem updateRecipe_network_alert (st : RecipePageState) (g : FetchResult (List Recipe))
    (r : Recipe)
    (hn : jsTrim st.updateRecipeNameInput ≠ "") (hi : jsTrim st.updateRecipeInstructionsInput ≠ "")
    (hf : findRecipeByName st.recipes (jsTrim st.updateRecipeNameInput) = some r) :
    updateRecipe st .networkError g =
      { st with alerts := st.alerts ++ ["Error updating recipe"] } := by
  unfold updateRecipe
  simp [hn, hi, hf]

theorem deleteRecipe_invalid_alert (st : RecipePageState) (del : FetchResult Unit)
    (g : FetchResult (List Recipe)) (h : jsTrim st.deleteRecipeNameInput = "") :
    deleteRecipe st del g =
      { st with alerts := st.alerts ++ ["Please provide a recipe name to delete"] } := by
  unfold deleteRecipe
  simp [h]

theorem deleteRecipe_notfound_alert (st : RecipePageState) (del : FetchResult Unit)
    (g : FetchResult (List Recipe)) (hn : jsTrim st.deleteRecipeNameInput ≠ "")
    (hf : findRecipeByName st.recipes (jsTrim st.deleteRecipeNameInput) = none) :
    deleteRecipe st del g = { st with alerts := st.alerts ++ ["Recipe not found"] } := by
  unfold deleteRecipe
  simp [hn, hf]

theorem deleteRecipe_401_alert (st : RecipePageState) (g : FetchResult (List Recipe)) (r : Recipe)
    (hn : jsTrim st.deleteRecipeNameInput ≠ "")
    (hf : findRecipeByName st.recipes (jsTrim st.deleteRecipeNameInput) = some r) :
    deleteRecipe st (.resp 401 ()) g =
      { st with alerts := st.alerts ++ ["Unauthorized: Please login again"] } := by
  unfold deleteRecipe
  simp [hn, hf]

theorem deleteRecipe_403_alert (st : RecipePageState) (g : FetchResult (List Recipe)) (r : Recipe)
    (hn : jsTrim st.deleteRecipeNameInput ≠ "")
    (hf : findRecipeByName st.recipes (jsTrim st.deleteRecipeNameInput) = some r) :
    deleteRecipe st (.resp 403 ()) g =
      { st with alerts := st.alerts ++ ["Forbidden: Admin access required"] } := by
  unfold deleteRecipe
  simp [hn, hf]

theorem deleteRecipe_other_alert (st : RecipePageState) (g : FetchResult (List Recipe))
    (r : Recipe) (s : Nat)
    (hn : jsTrim st.deleteRecipeNameInput ≠ "")
    (hf : findRecipeByName st.recipes (jsTrim st.deleteRecipeNameInput) = some r)
    (h1 : ¬(200 ≤ s ∧ s ≤ 299)) (h2 : s ≠ 401) (h3 : s ≠ 403) :
    deleteRecipe st (.resp s ()) g =
      { st with alerts := st.alerts ++ ["Failed to delete recipe"] } := by
  unfold deleteRecipe
  simp [hn, hf, h1, h2, h3]

theorem deleteRecipe_network_alert (st : RecipePageState) (g : FetchResult (List Recipe))
    (r : Recipe) (hn : jsTrim st.deleteRecipeNameInput ≠ "")
    (hf : findRecipeByName st.recipes (jsTrim st.deleteRecipeNameInput) = some r) :
    deleteRecipe st .networkError g =
      { st with alerts := st.alerts ++ ["Error deleting recipe"] } := by
  unfold deleteRecipe
  simp [hn, hf]

theorem getRecipes_401_alert_nav (st : RecipePageState) (b : List Recipe) :
    getRecipes st (.resp 401 b) =
      { st with alerts := st.alerts ++ ["Unauthorized: Please login"],
                navigatedTo := some loginPagePath } := by
  unfold getRecipes
  simp

theorem getRecipes_other_alert (st : RecipePageState) (b : List Recipe) (s : Nat)
    (h1 : ¬(200 ≤ s ∧ s ≤ 299)) (h2 : s ≠ 401) :
    getRecipes st (.resp s b) =
      { st with alerts := st.alerts ++ ["Failed to fetch recipes"] } := by
  unfold getRecipes
  simp [h1, h2]

theorem getRecipes_network_alert (st : RecipePageState) :
    getRecipes st .networkError =
      { st with alerts := st.alerts ++ ["Error fetching recipes"] } := by
  unfold getRecipes
  simp

theorem searchRecipes_other_alert (st : RecipePageState) (b : List Recipe)
    (g : FetchResult (List Recipe)) (s : Nat)
    (ht : jsTrim st.searchInput ≠ "") (h1 : ¬(200 ≤ s ∧ s ≤ 299)) (h2 : s ≠ 404) :
    searchRecipes st (.resp s b) g =
      { st with alerts := st.alerts ++ ["Error searching recipes"] } := by
  unfold searchRecipes
  simp [ht, h1, h2]

theorem searchRecipes_network_alert (st : RecipePageState) (g : FetchResult (List Recipe))
    (ht : jsTrim st.searchInput ≠ "") :
    searchRecipes st .networkError g =
      { st with alerts := st.alerts ++ ["Failed to search recipes"] } := by
  unfold searchRecipes
  simp [ht]

theorem processLogout_other_alert (st : RecipePageState) (s : Nat)
    (h1 : ¬(200 ≤ s ∧ s ≤ 299)) :
    processLogout st (.resp s ()) = { st with alerts := st.alerts ++ ["Logout failed"] } := by
  unfold processLogout
  simp [h1]

theorem processLogout_network_alert (st : RecipePageState) :
    processLogout st .networkError =
      { st with alerts := st.alerts ++ ["Error during logout"] } := by
  unfold processLogout
  simp

theorem addIngredient_invalid_alert (st : IngredientPageState) (post : FetchResult Unit)
    (g : FetchResult (List Ingredient)) (h : jsTrim st.addIngredientNameInput = "") :
    addIngredient st post g =
      { st with alerts := st.alerts ++ ["Please enter an ingredient name"] } := by
  unfold addIngredient
  simp [h]

theorem addIngredient_401_alert (st : IngredientPageState) (g : FetchResult (List Ingredient))
    (hn : jsTrim st.addIngredientNameInput ≠ "") :
    addIngredient st (.resp 401 ()) g =
      { st with alerts := st.alerts ++ ["Unauthorized: Please login again"] } := by
  unfold addIngredient
  simp [hn]

theorem addIngredient_403_alert (st : IngredientPageState) (g : FetchResult (List Ingredient))
    (hn : jsTrim st.addIngredientNameInput ≠ "") :
    addIngredient st (.resp 403 ()) g =
      { st with alerts := st.alerts ++ ["Forbidden: Admin access required"] } := by
  unfold addIngredient
  simp [hn]

theorem addIngredient_other_alert (st : IngredientPageState) (g : FetchResult (List Ingredient))
    (s : Nat) (hn : jsTrim st.addIngredientNameInput ≠ "")
    (h1 : s ≠ 201) (h2 : s ≠ 401) (h3 : s ≠ 403) :
    addIngredient st (.resp s ()) g =
      { st with alerts := st.alerts ++ ["Failed to add ingredient"] } := by
  unfold addIngredient
  simp [hn, h1, h2, h3]

theorem addIngredient_network_alert (st : IngredientPageState) (g : FetchResult (List Ingredient))
    (hn : jsTrim st.addIngredientNameInput ≠ "") :
    addIngredient st .networkError g =
      { st with alerts := st.alerts ++ ["Error adding ingredient"] } := by
  unfold addIngredient
  simp [hn]

theorem getIngredients_401_alert_nav (st : IngredientPageState) (b : List Ingredient) :
    getIngredients st (.resp 401 b) =
      { st with alerts := st.alerts ++ ["Unauthorized: Please login"],
                navigatedTo := some loginPagePath } := by
  unfold getIngredients
  simp

theorem getIngredients_other_alert (st : IngredientPageState) (b : List Ingredient) (s : Nat)
    (h1 : ¬(200 ≤ s ∧ s ≤ 299)) (h2 : s ≠ 401) :
    getIngredients st (.resp s b) =
      { st with alerts := st.alerts ++ ["Failed to fetch ingredients"] } := by
  unfold getIngredients
  simp [h1, h2]

theorem getIngredients_network_alert (st : IngredientPageState) :
    getIngredients st .networkError =
      { st with alerts := st.alerts ++ ["Error fetching ingredients"] } := by
  unfold getIngredients
  simp

theorem deleteIngredient_invalid_alert (st : IngredientPageState) (del : FetchResult Unit)
    (g : FetchResult (List Ingredient)) (h : jsTrim st.deleteIngredientNameInput = "") :
    deleteIngredient st del g =
      { st with alerts := st.alerts ++ ["Please enter an ingredient name to delete"] } := by
  unfold deleteIngredient
  simp [h]

theorem deleteIngredient_notfound_alert (st : IngredientPageState) (del : FetchResult Unit)
    (g : FetchResult (List Ingredient)) (hn : jsTrim st.deleteIngredientNameInput ≠ "")
    (hf : findIngredientByName st.ingredients (jsTrim st.deleteIngredientNameInput) = none) :
    deleteIngredient st del g =
      { st with alerts := st.alerts ++ ["Ingredient not found"] } := by
  unfold deleteIngredient
  simp [hn, hf]

theorem deleteIngredient_401_alert (st : IngredientPageState) (g : FetchResult (List Ingredient))
    (i : Ingredient) (hn : jsTrim st.deleteIngredientNameInput ≠ "")
    (hf : findIngredientByName st.ingredients (jsTrim st.deleteIngredientNameInput) = some i) :
    deleteIngredient st (.resp 401 ()) g =
      { st with alerts := st.alerts ++ ["Unauthorized: Please login again"] } := by
  unfold deleteIngredient
  simp [hn, hf]

theorem deleteIngredient_403_alert (st : IngredientPageState) (g : FetchResult (List Ingredient))
    (i : Ingredient) (hn : jsTrim st.deleteIngredientNameInput ≠ "")
    (hf : findIngredientByName st.ingredients (jsTrim st.deleteIngredientNameInput) = some i) :
    deleteIngredient st (.resp 403 ()) g =
      { st with alerts := st.alerts ++ ["Forbidden: Admin access required"] } := by
  unfold deleteIngredient
  simp [hn, hf]

theorem deleteIngredient_404_alert (st : IngredientPageState) (g : FetchResult (List Ingredient))
    (i : Ingredient) (hn : jsTrim st.deleteIngredientNameInput ≠ "")
    (hf : findIngredientByName st.ingredients (jsTrim st.deleteIngredientNameInput) = some i) :
    deleteIngredient st (.resp 404 ()) g =
      { st with alerts := st.alerts ++ ["Ingredient not found"] } := by
  unfold deleteIngredient
  simp [hn, hf]

theorem deleteIngredient_other_alert (st : IngredientPageState) (g : FetchResult (List Ingredient))
    (i : Ingredient) (s : Nat) (hn : jsTrim st.deleteIngredientNameInput ≠ "")
    (hf : findIngredientByName st.ingredients (jsTrim st.deleteIngredientNameInput) = some i)
    (h1 : ¬(s = 204 ∨ s = 200)) (h2 : s ≠ 401) (h3 : s ≠ 403) (h4 : s ≠ 404) :
    deleteIngredient st (.resp s ()) g =
      { st with alerts := st.alerts ++ ["Failed to delete ingredient"] } := by
  unfold deleteIngredient
  simp [hn, hf, h1, h2, h3, h4]

theorem deleteIngredient_network_alert (st : IngredientPageState)
    (g : FetchResult (List Ingredient)) (i : Ingredient)
    (hn : jsTrim st.deleteIngredientNameInput ≠ "")
    (hf : findIngredientByName st.ingredients (jsTrim st.deleteIngredientNameInput) = some i) :
    deleteIngredient st .networkError g =
      { st with alerts := st.alerts ++ ["Error deleting ingredient"] } := by
  unfold deleteIngredient
  simp [hn, hf]

theorem processLogin_invalid_alert (st : LoginPageState) (r : FetchResult String)
    (h : jsTrim st.usernameInput = "" ∨ jsTrim st.passwordInput = "") :
    processLogin st r =
      { st with alerts := st.alerts ++ ["Please enter both username and password"] } := by
  unfold processLogin
  rcases h with h | h <;> simp [h]

theorem processLogin_401_alert (st : LoginPageState) (b : String)
    (hu : jsTrim st.usernameInput ≠ "") (hp : jsTrim st.passwordInput ≠ "") :
    processLogin st (.resp 401 b) =
      { st with alerts := st.alerts ++ ["Incorrect login!"] } := by
  unfold processLogin
  simp [hu, hp]

theorem processLogin_other_alert (st : LoginPageState) (b : String) (s : Nat)
    (hu : jsTrim st.usernameInput ≠ "") (hp : jsTrim st.passwordInput ≠ "")
    (h1 : s ≠ 200) (h2 : s ≠ 401) :
    processLogin st (.resp s b) =
      { st with alerts := st.alerts ++ ["Unknown issue!"] } := by
  unfold processLogin
  simp [hu, hp, h1, h2]

theorem processLogin_network_alert (st : LoginPageState)
    (hu : jsTrim st.usernameInput ≠ "") (hp : jsTrim st.passwordInput ≠ "") :
    processLogin st .networkError =
      { st with alerts := st.alerts ++ ["Network error occurred. Please try again."] } := by
  unfold processLogin
  simp [hu, hp]

theorem processRegistration_invalid_alert (st : RegisterPageState) (r : FetchResult Unit)
    (h : jsTrim st.usernameInput = "" ∨ jsTrim st.emailInput = "" ∨
      jsTrim st.passwordInput = "" ∨ jsTrim st.repeatPasswordInput = "") :
    processRegistration st r =
      { st with alerts := st.alerts ++ ["Please fill in all fields"] } := by
  unfold processRegistration
  rcases h with h | h | h | h <;> simp [h]

theorem processRegistration_mismatch_alert (st : RegisterPageState) (r : FetchResult Unit)
    (hu : jsTrim st.usernameInput ≠ "") (he : jsTrim st.emailInput ≠ "")
    (hp : jsTrim st.passwordInput ≠ "") (hr : jsTrim st.repeatPasswordInput ≠ "")
    (hne : jsTrim st.passwordInput ≠ jsTrim st.repeatPasswordInput) :
    processRegistration st r =
      { st with alerts := st.alerts ++ ["Passwords do not match"] } := by
  unfold processRegistration
  simp [hu, he, hp, hr, hne]

theorem processRegistration_409_alert (st : RegisterPageState)
    (hu : jsTrim st.usernameInput ≠ "") (he : jsTrim st.emailInput ≠ "")
    (hp : jsTrim st.passwordInput ≠ "") (hr : jsTrim st.repeatPasswordInput ≠ "")
    (heq : jsTrim st.passwordInput = jsTrim st.repeatPasswordInput) :
    processRegistration st (.resp 409 ()) =
      { st with alerts := st.alerts ++ ["User or email already exists"] } := by
  unfold processRegistration
  simp [hu, he, hp, hr, heq]

theorem processRegistration_other_alert (st : RegisterPageState) (s : Nat)
    (hu : jsTrim st.usernameInput ≠ "") (he : jsTrim st.emailInput ≠ "")
    (hp : jsTrim st.passwordInput ≠ "") (hr : jsTrim st.repeatPasswordInput ≠ "")
    (heq : jsTrim st.passwordInput = jsTrim st.repeatPasswordInput)
    (h1 : s ≠ 201) (h2 : s ≠ 409) :
    processRegistration st (.resp s ()) =
      { st with alerts := st.alerts ++ ["Registration error. Please try again."] } := by
  unfold processRegistration
  simp [hu, he, hp, hr, heq, h1, h2]

theorem processRegistration_network_alert (st : RegisterPageState)
    (hu : jsTrim st.usernameInput ≠ "") (he : jsTrim st.emailInput ≠ "")
    (hp : jsTrim st.passwordInput ≠ "") (hr : jsTrim st.repeatPasswordInput ≠ "")
    (heq : jsTrim st.passwordInput = jsTrim st.repeatPasswordInput) :
    processRegistration st .networkError =
      { st with alerts := st.alerts ++
        ["An error occurred during registration. Please try again."] } := by
  unfold processRegistration
  simp [hu, he, hp, hr, heq]

/-- C5: the name-keyed resolver scans the mirror sequence in order and
returns the first record whose name field equals the query exactly; it
returns absent exactly when no record's name equals the query; when
several records share the queried name the earliest one in the sequence
is returned. Holds for the recipe resolver and the ingredient resolver. -/
theorem c5_find_by_name_first_exact_match :
    (∀ (rs : List Recipe) (q : String) (r : Recipe),
      findRecipeByName rs q = some r → r.name = q) ∧
    (∀ (rs : List Recipe) (q : String),
      findRecipeByName rs q = none ↔ ∀ r ∈ rs, r.name ≠ q) ∧
    (∀ (rs : List Recipe) (q : String) (r : Recipe),
      findRecipeByName rs q = some r →
        ∃ l1 l2, rs = l1 ++ r :: l2 ∧ ∀ x ∈ l1, x.name ≠ q) ∧
    (∀ (xs : List Ingredient) (q : String) (i : Ingredient),
      findIngredientByName xs q = some i → i.name = q) ∧
    (∀ (xs : List Ingredient) (q : String),
      findIngredientByName xs q = none ↔ ∀ i ∈ xs, i.name ≠ q) ∧
    (∀ (xs : List Ingredient) (q : String) (i : Ingredient),
      findIngredientByName xs q = some i →
        ∃ l1 l2, xs = l1 ++ i :: l2 ∧ ∀ x ∈ l1, x.name ≠ q) := by
  refine ⟨?_, ?_, ?_, ?_, ?_, ?_⟩
  · intro rs q r h
    have := List.find?_some h
    simpa using this
  · intro rs q
    unfold findRecipeByName
    rw [List.find?_eq_none]
    simp
  · intro rs q r h
    rw [findRecipeByName, List.find?_eq_some] at h
    obtain ⟨-, l1, l2, rfl, hall⟩ := h
    refine ⟨l1, l2, rfl, ?_⟩
    intro x hx
    have := hall x hx
    simpa using this
  · intro xs q i h
    have := List.find?_some h
    simpa using this
  · intro xs q
    unfold findIngredientByName
    rw [List.find?_eq_none]
    simp
  · intro xs q i h
    rw [findIngredientByName, List.find?_eq_some] at h
    obtain ⟨-, l1, l2, rfl, hall⟩ := h
    refine ⟨l1, l2, rfl, ?_⟩
    intro x hx
    have := hall x hx
    simpa using this

/-- Witness for C5 at a concrete mirror holding two records named Pasta:
the resolver answers the earlier record, whose name is the query. -/
theorem c5_witness :
    (Recipe.mk 1 "Pasta" "Boil" "alice").name = "Pasta" ∧
    ∃ l1 l2, [Recipe.mk 1 "Pasta" "Boil" "alice", Recipe.mk 2 "Pasta" "Bake" "bob"] =
      l1 ++ (Recipe.mk 1 "Pasta" "Boil" "alice") :: l2 ∧ ∀ x ∈ l1, x.name ≠ "Pasta" :=
  ⟨c5_find_by_name_first_exact_match.1
      [Recipe.mk 1 "Pasta" "Boil" "alice", Recipe.mk 2 "Pasta" "Bake" "bob"] "Pasta"
      (Recipe.mk 1 "Pasta" "Boil" "alice") (by decide),
   c5_find_by_name_first_exact_match.2.2.1
      [Recipe.mk 1 "Pasta" "Boil" "alice", Recipe.mk 2 "Pasta" "Bake" "bob"] "Pasta"
      (Recipe.mk 1 "Pasta" "Boil" "alice") (by decide)⟩

/-- C6: after setSession with a token and the literal true flag, getToken
returns that token and the admin check is true; the admin check is false
whenever the stored flag is unset or any string other than exactly the
literal true; and after clearSession the token is absent. -/
theorem c6_session_store_contract :
    (∀ (s : Store) (t : String), getToken (setSession s t "true") = some t) ∧
    (∀ (s : Store) (t : String), isAdminFlagSet (setSession s t "true") = true) ∧
    (∀ s : Store, s.isAdmin = none → isAdminFlagSet s = false) ∧
    (∀ (s : Store) (f : String), s.isAdmin = some f → f ≠ "true" →
      isAdminFlagSet s = false) ∧
    (∀ s : Store, getToken (clearSession s) = none) := by
  refine ⟨fun s t => rfl, fun s t => rfl, ?_, ?_, fun s => rfl⟩
  · intro s h
    simp [isAdminFlagSet, h]
  · intro s f h hf
    simp [isAdminFlagSet, h, hf]

/-- Witness for C6 at concrete stores: a set session yields the token and
a flag of false fails the admin check. -/
theorem c6_witness :
    getToken (setSession ⟨none, none⟩ "tok123" "true") = some "tok123" ∧
    isAdminFlagSet ⟨some "tok", some "false"⟩ = false :=
  ⟨c6_session_store_contract.1 ⟨none, none⟩ "tok123",
   c6_session_store_contract.2.2.2.1 ⟨some "tok", some "false"⟩ "false" rfl (by decide)⟩

/-- C8: with a search term that trims to empty, the search workflow is
exactly the plain get-all-recipes workflow on the same follow-up fetch
outcome, so the mirror ends as the full unfiltered collection. -/
theorem c8_empty_search_equals_get_all (st : RecipePageState)
    (searchResp getResp : FetchResult (List Recipe))
    (h : jsTrim st.searchInput = "") :
    searchRecipes st searchResp getResp = getRecipes st getResp := by
  unfold searchRecipes
  simp [h]

/-- Witness for C8 at a concrete state whose search input is whitespace. -/
theorem c8_witness :
    searchRecipes sampleRecipeState FetchResult.networkError
        (FetchResult.resp 200 [Recipe.mk 1 "Pasta" "Boil water" "alice"]) =
      getRecipes sampleRecipeState
        (FetchResult.resp 200 [Recipe.mk 1 "Pasta" "Boil water" "alice"]) :=
  c8_empty_search_equals_get_all sampleRecipeState FetchResult.networkError
    (FetchResult.resp 200 [Recipe.mk 1 "Pasta" "Boil water" "alice"]) (by decide)

/-- C9: on the whole status range 100 to 599 the classification is total
and exclusive: Success exactly on 2xx, Unauthorized exactly on 401,
Forbidden exactly on 403, NotFound exactly on 404, Conflict exactly on
409, GenericFailure exactly on the remaining non-2xx codes, and a status
code never classifies as NetworkError, which is reserved for transport
failures. -/
theorem c9_classification_total_exclusive (s : Nat) (h1 : 100 ≤ s) (h2 : s ≤ 599) :
    (classifyStatus s = .success s ↔ 200 ≤ s ∧ s ≤ 299) ∧
    (classifyStatus s = .unauthorized ↔ s = 401) ∧
    (classifyStatus s = .forbidden ↔ s = 403) ∧
    (classifyStatus s = .notFound ↔ s = 404) ∧
    (classifyStatus s = .conflict ↔ s = 409) ∧
    (classifyStatus s = .genericFailure s ↔
      ¬(200 ≤ s ∧ s ≤ 299) ∧ s ≠ 401 ∧ s ≠ 403 ∧ s ≠ 404 ∧ s ≠ 409) ∧
    classifyStatus s ≠ .networkError := by
  unfold classifyStatus
  split_ifs with h3 h4 h5 h6 h7 <;> simp_all <;> omega

/-- Witness for C9 at the concrete status 403: it classifies as Forbidden
and not as NetworkError. -/
theorem c9_witness :
    classifyStatus 403 = RestResult.forbidden ∧
    classifyStatus 403 ≠ RestResult.networkError :=
  ⟨(c9_classification_total_exclusive 403 (by decide) (by decide)).2.2.1.mpr rfl,
   (c9_classification_total_exclusive 403 (by decide) (by decide)).2.2.2.2.2.2⟩

/-- C10: whenever the update form's trimmed name resolves to a record in
the current mirror, the PUT body carries that record's id, name and
author unchanged and takes only the instructions field from the form. -/
theorem c10_update_request_preserves_identity (st : RecipePageState) (body : Recipe)
    (h : updateRecipeRequest st = some body) :
    ∃ r, findRecipeByName st.recipes (jsTrim st.updateRecipeNameInput) = some r ∧
      body.id = r.id ∧ body.name = r.name ∧ body.author = r.author ∧
      body.instructions = jsTrim st.updateRecipeInstructionsInput := by
  unfold updateRecipeRequest at h
  by_cases hv : jsTrim st.updateRecipeNameInput = "" ∨ jsTrim st.updateRecipeInstructionsInput = ""
  · simp [hv] at h
  · simp only [if_neg hv] at h
    cases hr : findRecipeByName st.recipes (jsTrim st.updateRecipeNameInput) with
    | none => rw [hr] at h; simp at h
    | some r =>
      rw [hr] at h
      simp only [Option.map_some', Option.some.injEq] at h
      exact ⟨r, rfl, by rw [← h]; exact ⟨rfl, rfl, rfl, rfl⟩⟩

/-- Witness for C10 at the sample state: the body built for the Pasta
update keeps id 1, the name and the author, and carries the new
instructions. -/
theorem c10_witness :
    ∃ r, findRecipeByName sampleRecipeState.recipes
        (jsTrim sampleRecipeState.updateRecipeNameInput) = some r ∧
      (Recipe.mk 1 "Pasta" "Boil longer" "alice").id = r.id ∧
      (Recipe.mk 1 "Pasta" "Boil longer" "alice").name = r.name ∧
      (Recipe.mk 1 "Pasta" "Boil longer" "alice").author = r.author ∧
      (Recipe.mk 1 "Pasta" "Boil longer" "alice").instructions =
        jsTrim sampleRecipeState.updateRecipeInstructionsInput :=
  c10_update_request_preserves_identity sampleRecipeState
    (Recipe.mk 1 "Pasta" "Boil longer" "alice") (by decide)

/-- C3: a valid add submission answered 201 clears the add form inputs to
empty strings and re-fetches the collection; when the re-fetch succeeds
with the server collection containing the submitted name, the mirror
afterwards contains an entry with that name. Holds for the recipe page
and the ingredient page alike. -/
theorem c3_add_success_clears_inputs_and_refreshes :
    (∀ (st : RecipePageState) (s : Nat) (body : List Recipe),
      jsTrim st.addRecipeNameInput ≠ "" → jsTrim st.addRecipeInstructionsInput ≠ "" →
      200 ≤ s → s ≤ 299 →
      (∃ r ∈ body, r.name = jsTrim st.addRecipeNameInput) →
      (addRecipe st (.resp 201 ()) (.resp s body)).addRecipeNameInput = "" ∧
      (addRecipe st (.resp 201 ()) (.resp s body)).addRecipeInstructionsInput = "" ∧
      (addRecipe st (.resp 201 ()) (.resp s body)).recipes = body ∧
      ∃ r ∈ (addRecipe st (.resp 201 ()) (.resp s body)).recipes,
        r.name = jsTrim st.addRecipeNameInput) ∧
    (∀ (st : IngredientPageState) (s : Nat) (body : List Ingredient),
      jsTrim st.addIngredientNameInput ≠ "" →
      200 ≤ s → s ≤ 299 →
      (∃ i ∈ body, i.name = jsTrim st.addIngredientNameInput) →
      (addIngredient st (.resp 201 ()) (.resp s body)).addIngredientNameInput = "" ∧
      (addIngredient st (.resp 201 ()) (.resp s body)).ingredients = body ∧
      ∃ i ∈ (addIngredient st (.resp 201 ()) (.resp s body)).ingredients,
        i.name = jsTrim st.addIngredientNameInput) := by
  constructor
  · intro st s body hn hi hs1 hs2 hmem
    unfold addRecipe getRecipes refreshRecipeList
    simp [hn, hi, hs1, hs2]
    exact hmem
  · intro st s body hn hs1 hs2 hmem
    unfold addIngredient getIngredients refreshIngredientList
    simp [hn, hs1, hs2]
    exact hmem

/-- Witness for C3 at the sample state: adding Soup answered 201 with a
re-fetch returning the collection including Soup clears both inputs and
leaves Soup in the mirror. -/
theorem c3_witness :
    (addRecipe sampleRecipeState (.resp 201 ())
        (.resp 200 [Recipe.mk 1 "Pasta" "Boil water" "alice",
                    Recipe.mk 2 "Soup" "Simmer" "alice"])).addRecipeNameInput = "" ∧
    (addRecipe sampleRecipeState (.resp 201 ())
        (.resp 200 [Recipe.mk 1 "Pasta" "Boil water" "alice",
                    Recipe.mk 2 "Soup" "Simmer" "alice"])).addRecipeInstructionsInput = "" ∧
    (addRecipe sampleRecipeState (.resp 201 ())
        (.resp 200 [Recipe.mk 1 "Pasta" "Boil water" "alice",
                    Recipe.mk 2 "Soup" "Simmer" "alice"])).recipes =
      [Recipe.mk 1 "Pasta" "Boil water" "alice", Recipe.mk 2 "Soup" "Simmer" "alice"] ∧
    ∃ r ∈ (addRecipe sampleRecipeState (.resp 201 ())
        (.resp 200 [Recipe.mk 1 "Pasta" "Boil water" "alice",
                    Recipe.mk 2 "Soup" "Simmer" "alice"])).recipes,
      r.name = jsTrim sampleRecipeState.addRecipeNameInput :=
  c3_add_success_clears_inputs_and_refreshes.1 sampleRecipeState 200
    [Recipe.mk 1 "Pasta" "Boil water" "alice", Recipe.mk 2 "Soup" "Simmer" "alice"]
    (by decide) (by decide) (by decide) (by decide)
    ⟨Recipe.mk 2 "Soup" "Simmer" "alice", by decide, by decide⟩

/-- C1 fails on the code: at a concrete authenticated state, addRecipe
answered 401 keeps the stored session intact and performs no navigation,
so the client does not transition to Anonymous. -/
theorem c1_counterexample_add_recipe_401_keeps_session :
    (addRecipe sampleRecipeState (.resp 401 ()) (.resp 200 [])).store.authToken =
      some "tok" ∧
    (addRecipe sampleRecipeState (.resp 401 ()) (.resp 200 [])).store.isAdmin =
      some "true" ∧
    (addRecipe sampleRecipeState (.resp 401 ()) (.resp 200 [])).navigatedTo = none := by
  decide

/-- C1 amended: on an Unauthorized response the fetch-all workflows alert
and navigate back to the login page while keeping the stored session,
and the mutation workflows only alert, leaving session, navigation,
inputs and mirror unchanged; no workflow ever discards the stored
session on a 401. -/
theorem c1_amended_unauthorized_behavior :
    (∀ (st : RecipePageState) (b : List Recipe),
      getRecipes st (.resp 401 b) =
        { st with alerts := st.alerts ++ ["Unauthorized: Please login"],
                  navigatedTo := some loginPagePath }) ∧
    (∀ (st : IngredientPageState) (b : List Ingredient),
      getIngredients st (.resp 401 b) =
        { st with alerts := st.alerts ++ ["Unauthorized: Please login"],
                  navigatedTo := some loginPagePath }) ∧
    (∀ (st : RecipePageState) (g : FetchResult (List Recipe)),
      jsTrim st.addRecipeNameInput ≠ "" → jsTrim st.addRecipeInstructionsInput ≠ "" →
      addRecipe st (.resp 401 ()) g =
        { st with alerts := st.alerts ++ ["Unauthorized: Please login again"] }) ∧
    (∀ (st : RecipePageState) (g : FetchResult (List Recipe)) (r : Recipe),
      jsTrim st.updateRecipeNameInput ≠ "" → jsTrim st.updateRecipeInstructionsInput ≠ "" →
      findRecipeByName st.recipes (jsTrim st.updateRecipeNameInput) = some r →
      updateRecipe st (.resp 401 ()) g =
        { st with alerts := st.alerts ++ ["Unauthorized: Please login again"] }) ∧
    (∀ (st : RecipePageState) (g : FetchResult (List Recipe)) (r : Recipe),
      jsTrim st.deleteRecipeNameInput ≠ "" →
      findRecipeByName st.recipes (jsTrim st.deleteRecipeNameInput) = some r →
      deleteRecipe st (.resp 401 ()) g =
        { st with alerts := st.alerts ++ ["Unauthorized: Please login again"] }) ∧
    (∀ (st : IngredientPageState) (g : FetchResult (List Ingredient)),
      jsTrim st.addIngredientNameInput ≠ "" →
      addIngredient st (.resp 401 ()) g =
        { st with alerts := st.alerts ++ ["Unauthorized: Please login again"] }) ∧
    (∀ (st : IngredientPageState) (g : FetchResult (List Ingredient)) (i : Ingredient),
      jsTrim st.deleteIngredientNameInput ≠ "" →
      findIngredientByName st.ingredients (jsTrim st.deleteIngredientNameInput) = some i →
      deleteIngredient st (.resp 401 ()) g =
        { st with alerts := st.alerts ++ ["Unauthorized: Please login again"] }) :=
  ⟨getRecipes_401_alert_nav, getIngredients_401_alert_nav,
   fun st g hn hi => addRecipe_401_alert st g hn hi,
   fun st g r hn hi hf => updateRecipe_401_alert st g r hn hi hf,
   fun st g r hn hf => deleteRecipe_401_alert st g r hn hf,
   fun st g hn => addIngredient_401_alert st g hn,
   fun st g i hn hf => deleteIngredient_401_alert st g i hn hf⟩

/-- Witness for C1 amended at the sample authenticated state: a 401 on
addRecipe appends the unauthorized alert and nothing else. -/
theorem c1_witness :
    addRecipe sampleRecipeState (.resp 401 ()) (.resp 200 []) =
      { sampleRecipeState with
          alerts := sampleRecipeState.alerts ++ ["Unauthorized: Please login again"] } :=
  c1_amended_unauthorized_behavior.2.2.1 sampleRecipeState (.resp 200 [])
    (by decide) (by decide)

/-- C2 fails on the code: with a non-empty search term, a remote 404 on
the search workflow produces no user-facing message and still replaces
the mirror with the empty list, a failure handled with a side effect and
zero messages. -/
theorem c2_counterexample_search_404_silent_refresh :
    (searchRecipes { sampleRecipeState with searchInput := "Cake" }
        (.resp 404 []) (.resp 200 [])).alerts = [] ∧
    (searchRecipes { sampleRecipeState with searchInput := "Cake" }
        (.resp 404 []) (.resp 200 [])).recipes = [] ∧
    sampleRecipeState.recipes ≠ [] := by
  decide

/-- C2 amended: for every workflow and every failure variant the workflow
aborts after exactly one user-facing message with no other side effects,
with two carve-outs: an Unauthorized on the fetch-all workflows also
navigates back to login, and the search workflow treats a remote 404 as
an empty result, replacing the mirror with the empty sequence and
showing no message. -/
theorem c2_amended_failures_alert_only :
    (∀ (st : RecipePageState) (post : FetchResult Unit) (g : FetchResult (List Recipe)),
      jsTrim st.addRecipeNameInput = "" ∨ jsTrim st.addRecipeInstructionsInput = "" →
      addRecipe st post g =
        { st with alerts := st.alerts ++ ["Please provide both recipe name and instructions"] }) ∧
    (∀ (st : RecipePageState) (g : FetchResult (List Recipe)) (s : Nat),
      jsTrim st.addRecipeNameInput ≠ "" → jsTrim st.addRecipeInstructionsInput ≠ "" →
      s ≠ 201 → ∃ m, addRecipe st (.resp s ()) g = { st with alerts := st.alerts ++ [m] }) ∧
    (∀ (st : RecipePageState) (g : FetchResult (List Recipe)),
      jsTrim st.addRecipeNameInput ≠ "" → jsTrim st.addRecipeInstructionsInput ≠ "" →
      addRecipe st .networkError g =
        { st with alerts := st.alerts ++ ["Error adding recipe"] }) ∧
    (∀ (st : RecipePageState) (put : FetchResult Unit) (g : FetchResult (List Recipe)),
      jsTrim st.updateRecipeNameInput = "" ∨ jsTrim st.updateRecipeInstructionsInput = "" →
      updateRecipe st put g =
        { st with alerts := st.alerts ++ ["Please provide both recipe name and new instructions"] }) ∧
    (∀ (st : RecipePageState) (put : FetchResult Unit) (g : FetchResult (List Recipe)),
      jsTrim st.updateRecipeNameInput ≠ "" → jsTrim st.updateRecipeInstructionsInput ≠ "" →
      findRecipeByName st.recipes (jsTrim st.updateRecipeNameInput) = none →
      updateRecipe st put g = { st with alerts := st.alerts ++ ["Recipe not found"] }) ∧
    (∀ (st : RecipePageState) (g : FetchResult (List Recipe)) (r : Recipe) (s : Nat),
      jsTrim st.updateRecipeNameInput ≠ "" → jsTrim st.updateRecipeInstructionsInput ≠ "" →
      findRecipeByName st.recipes (jsTrim st.updateRecipeNameInput) = some r →
      ¬(200 ≤ s ∧ s ≤ 299) →
      ∃ m, updateRecipe st (.resp s ()) g = { st with alerts := st.alerts ++ [m] }) ∧
    (∀ (st : RecipePageState) (g : FetchResult (List Recipe)) (r : Recipe),
      jsTrim st.updateRecipeNameInput ≠ "" → jsTrim st.updateRecipeInstructionsInput ≠ "" →
      findRecipeByName st.recipes (jsTrim st.updateRecipeNameInput) = some r →
      updateRecipe st .networkError g =
        { st with alerts := st.alerts ++ ["Error updating recipe"] }) ∧
    (∀ (st : RecipePageState) (del : FetchResult Unit) (g : FetchResult (List Recipe)),
      jsTrim st.deleteRecipeNameInput = "" →
      deleteRecipe st del g =
        { st with alerts := st.alerts ++ ["Please provide a recipe name to delete"] }) ∧
    (∀ (st : RecipePageState) (del : FetchResult Unit) (g : FetchResult (List Recipe)),
      jsTrim st.deleteRecipeNameInput ≠ "" →
      findRecipeByName st.recipes (jsTrim st.deleteRecipeNameInput) = none →
      deleteRecipe st del g = { st with alerts := st.alerts ++ ["Recipe not found"] }) ∧
    (∀ (st : RecipePageState) (g : FetchResult (List Recipe)) (r : Recipe) (s : Nat),
      jsTrim st.deleteRecipeNameInput ≠ "" →
      findRecipeByName st.recipes (jsTrim st.deleteRecipeNameInput) = some r →
      ¬(200 ≤ s ∧ s ≤ 299) →
      ∃ m, deleteRecipe st (.resp s ()) g = { st with alerts := st.alerts ++ [m] }) ∧
    (∀ (st : RecipePageState) (g : FetchResult (List Recipe)) (r : Recipe),
      jsTrim st.deleteRecipeNameInput ≠ "" →
      findRecipeByName st.recipes (jsTrim st.deleteRecipeNameInput) = some r →
      deleteRecipe st .networkError g =
        { st with alerts := st.alerts ++ ["Error deleting recipe"] }) ∧
    (∀ (st : RecipePageState) (b : List Recipe),
      getRecipes st (.resp 401 b) =
        { st with alerts := st.alerts ++ ["Unauthorized: Please login"],
                  navigatedTo := some loginPagePath }) ∧
    (∀ (st : RecipePageState) (b : List Recipe) (s : Nat),
      ¬(200 ≤ s ∧ s ≤ 299) → s ≠ 401 →
      getRecipes st (.resp s b) =
        { st with alerts := st.alerts ++ ["Failed to fetch recipes"] }) ∧
    (∀ st : RecipePageState,
      getRecipes st .networkError =
        { st with alerts := st.alerts ++ ["Error fetching recipes"] }) ∧
    (∀ (st : RecipePageState) (b : List Recipe) (g : FetchResult (List Recipe)) (s : Nat),
      jsTrim st.searchInput ≠ "" → ¬(200 ≤ s ∧ s ≤ 299) → s ≠ 404 →
      searchRecipes st (.resp s b) g =
        { st with alerts := st.alerts ++ ["Error searching recipes"] }) ∧
    (∀ (st : RecipePageState) (g : FetchResult (List Recipe)),
      jsTrim st.searchInput ≠ "" →
      searchRecipes st .networkError g =
        { st with alerts := st.alerts ++ ["Failed to search recipes"] }) ∧
    (∀ (st : RecipePageState) (s : Nat),
      ¬(200 ≤ s ∧ s ≤ 299) →
      processLogout st (.resp s ()) =
        { st with alerts := st.alerts ++ ["Logout failed"] }) ∧
    (∀ st : RecipePageState,
      processLogout st .networkError =
        { st with alerts := st.alerts ++ ["Error during logout"] }) ∧
    (∀ (st : IngredientPageState) (post : FetchResult Unit) (g : FetchResult (List Ingredient)),
      jsTrim st.addIngredientNameInput = "" →
      addIngredient st post g =
        { st with alerts := st.alerts ++ ["Please enter an ingredient name"] }) ∧
    (∀ (st : IngredientPageState) (g : FetchResult (List Ingredient)) (s : Nat),
      jsTrim st.addIngredientNameInput ≠ "" → s ≠ 201 →
      ∃ m, addIngredient st (.resp s ()) g = { st with alerts := st.alerts ++ [m] }) ∧
    (∀ (st : IngredientPageState) (g : FetchResult (List Ingredient)),
      jsTrim st.addIngredientNameInput ≠ "" →
      addIngredient st .networkError g =
        { st with alerts := st.alerts ++ ["Error adding ingredient"] }) ∧
    (∀ (st : IngredientPageState) (b : List Ingredient),
      getIngredients st (.resp 401 b) =
        { st with alerts := st.alerts ++ ["Unauthorized: Please login"],
                  navigatedTo := some loginPagePath }) ∧
    (∀ (st : IngredientPageState) (b : List Ingredient) (s : Nat),
      ¬(200 ≤ s ∧ s ≤ 299) → s ≠ 401 →
      getIngredients st (.resp s b) =
        { st with alerts := st.alerts ++ ["Failed to fetch ingredients"] }) ∧
    (∀ st : IngredientPageState,
      getIngredients st .networkError =
        { st with alerts := st.alerts ++ ["Error fetching ingredients"] }) ∧
    (∀ (st : IngredientPageState) (del : FetchResult Unit) (g : FetchResult (List Ingredient)),
      jsTrim st.deleteIngredientNameInput = "" →
      deleteIngredient st del g =
        { st with alerts := st.alerts ++ ["Please enter an ingredient name to delete"] }) ∧
    (∀ (st : IngredientPageState) (del : FetchResult Unit) (g : FetchResult (List Ingredient)),
      jsTrim st.deleteIngredientNameInput ≠ "" →
      findIngredientByName st.ingredients (jsTrim st.deleteIngredientNameInput) = none →
      deleteIngredient st del g =
        { st with alerts := st.alerts ++ ["Ingredient not found"] }) ∧
    (∀ (st : IngredientPageState) (g : FetchResult (List Ingredient)) (i : Ingredient) (s : Nat),
      jsTrim st.deleteIngredientNameInput ≠ "" →
      findIngredientByName st.ingredients (jsTrim st.deleteIngredientNameInput) = some i →
      ¬(s = 204 ∨ s = 200) →
      ∃ m, deleteIngredient st (.resp s ()) g = { st with alerts := st.alerts ++ [m] }) ∧
    (∀ (st : IngredientPageState) (g : FetchResult (List Ingredient)) (i : Ingredient),
      jsTrim st.deleteIngredientNameInput ≠ "" →
      findIngredientByName st.ingredients (jsTrim st.deleteIngredientNameInput) = some i →
      deleteIngredient st .networkError g =
        { st with alerts := st.alerts ++ ["Error deleting ingredient"] }) ∧
    (∀ (st : LoginPageState) (r : FetchResult String),
      jsTrim st.usernameInput = "" ∨ jsTrim st.passwordInput = "" →
      processLogin st r =
        { st with alerts := st.alerts ++ ["Please enter both username and password"] }) ∧
    (∀ (st : LoginPageState) (b : String) (s : Nat),
      jsTrim st.usernameInput ≠ "" → jsTrim st.passwordInput ≠ "" → s ≠ 200 →
      ∃ m, processLogin st (.resp s b) = { st with alerts := st.alerts ++ [m] }) ∧
    (∀ st : LoginPageState,
      jsTrim st.usernameInput ≠ "" → jsTrim st.passwordInput ≠ "" →
      processLogin st .networkError =
        { st with alerts := st.alerts ++ ["Network error occurred. Please try again."] }) ∧
    (∀ (st : RegisterPageState) (r : FetchResult Unit),
      jsTrim st.usernameInput = "" ∨ jsTrim st.emailInput = "" ∨
        jsTrim st.passwordInput = "" ∨ jsTrim st.repeatPasswordInput = "" →
      processRegistration st r =
        { st with alerts := st.alerts ++ ["Please fill in all fields"] }) ∧
    (∀ (st : RegisterPageState) (r : FetchResult Unit),
      jsTrim st.usernameInput ≠ "" → jsTrim st.emailInput ≠ "" →
      jsTrim st.passwordInput ≠ "" → jsTrim st.repeatPasswordInput ≠ "" →
      jsTrim st.passwordInput ≠ jsTrim st.repeatPasswordInput →
      processRegistration st r =
        { st with alerts := st.alerts ++ ["Passwords do not match"] }) ∧
    (∀ (st : RegisterPageState) (s : Nat),
      jsTrim st.usernameInput ≠ "" → jsTrim st.emailInput ≠ "" →
      jsTrim st.passwordInput ≠ "" → jsTrim st.repeatPasswordInput ≠ "" →
      jsTrim st.passwordInput = jsTrim st.repeatPasswordInput → s ≠ 201 →
      ∃ m, processRegistration st (.resp s ()) = { st with alerts := st.alerts ++ [m] }) ∧
    (∀ st : RegisterPageState,
      jsTrim st.usernameInput ≠ "" → jsTrim st.emailInput ≠ "" →
      jsTrim st.passwordInput ≠ "" → jsTrim st.repeatPasswordInput ≠ "" →
      jsTrim st.passwordInput = jsTrim st.repeatPasswordInput →
      processRegistration st .networkError =
        { st with alerts := st.alerts ++
          ["An error occurred during registration. Please try again."] }) := by
  refine ⟨addRecipe_invalid_alert, ?_, addRecipe_network_alert,
    updateRecipe_invalid_alert, updateRecipe_notfound_alert, ?_, updateRecipe_network_alert,
    deleteRecipe_invalid_alert, deleteRecipe_notfound_alert, ?_, deleteRecipe_network_alert,
    getRecipes_401_alert_nav, getRecipes_other_alert, getRecipes_network_alert,
    searchRecipes_other_alert, searchRecipes_network_alert,
    processLogout_other_alert, processLogout_network_alert,
    addIngredient_invalid_alert, ?_, addIngredient_network_alert,
    getIngredients_401_alert_nav, getIngredients_other_alert, getIngredients_network_alert,
    deleteIngredient_invalid_alert, deleteIngredient_notfound_alert, ?_,
    deleteIngredient_network_alert,
    processLogin_invalid_alert, ?_, processLogin_network_alert,
    processRegistration_invalid_alert, processRegistration_mismatch_alert, ?_,
    processRegistration_network_alert⟩
  · intro st g s hn hi hs
    by_cases h4 : s = 401
    · subst h4
      exact ⟨_, addRecipe_401_alert st g hn hi⟩
    · exact ⟨_, addRecipe_other_alert st g s hn hi hs h4⟩
  · intro st g r s hn hi hf hs
    by_cases h4 : s = 401
    · subst h4
      exact ⟨_, updateRecipe_401_alert st g r hn hi hf⟩
    · exact ⟨_, updateRecipe_other_alert st g r s hn hi hf hs h4⟩
  · intro st g r s hn hf hs
    by_cases h4 : s = 401
    · subst h4
      exact ⟨_, deleteRecipe_401_alert st g r hn hf⟩
    by_cases h5 : s = 403
    · subst h5
      exact ⟨_, deleteRecipe_403_alert st g r hn hf⟩
    · exact ⟨_, deleteRecipe_other_alert st g r s hn hf hs h4 h5⟩
  · intro st g s hn hs
    by_cases h4 : s = 401
    · subst h4
      exact ⟨_, addIngredient_401_alert st g hn⟩
    by_cases h5 : s = 403
    · subst h5
      exact ⟨_, addIngredient_403_alert st g hn⟩
    · exact ⟨_, addIngredient_other_alert st g s hn hs h4 h5⟩
  · intro st g i s hn hf hs
    by_cases h4 : s = 401
    · subst h4
      exact ⟨_, deleteIngredient_401_alert st g i hn hf⟩
    by_cases h5 : s = 403
    · subst h5
      exact ⟨_, deleteIngredient_403_alert st g i hn hf⟩
    by_cases h6 : s = 404
    · subst h6
      exact ⟨_, deleteIngredient_404_alert st g i hn hf⟩
    · exact ⟨_, deleteIngredient_other_alert st g i s hn hf hs h4 h5 h6⟩
  · intro st b s hu hp hs
    by_cases h4 : s = 401
    · subst h4
      exact ⟨_, processLogin_401_alert st b hu hp⟩
    · exact ⟨_, processLogin_other_alert st b s hu hp hs h4⟩
  · intro st s hu he hp hr heq hs
    by_cases h4 : s = 409
    · subst h4
      exact ⟨_, processRegistration_409_alert st hu he hp hr heq⟩
    · exact ⟨_, processRegistration_other_alert st s hu he hp hr heq hs h4⟩

/-- Witness for C2 amended at a concrete state: a 500 on the search
workflow appends exactly the searching-error alert and nothing else. -/
theorem c2_witness :
    searchRecipes { sampleRecipeState with searchInput := "Cake" } (.resp 500 [])
        (.resp 200 []) =
      { { sampleRecipeState with searchInput := "Cake" } with
          alerts := { sampleRecipeState with searchInput := "Cake" }.alerts ++
            ["Error searching recipes"] } :=
  c2_amended_failures_alert_only.2.2.2.2.2.2.2.2.2.2.2.2.2.2.1
    { sampleRecipeState with searchInput := "Cake" } [] (.resp 200 []) 500
    (by decide) (by decide) (by decide)

/-- C4 fails on the code: at a concrete state with valid inputs, addRecipe
answered 403 Forbidden presents the generic failure message, not the
admin-access-required message. -/
theorem c4_counterexample_add_recipe_403_generic :
    (addRecipe sampleRecipeState (.resp 403 ()) (.resp 200 [])).alerts =
      ["Failed to add recipe"] ∧
    "Failed to add recipe" ≠ "Forbidden: Admin access required" := by
  decide

/-- C4 amended: the admin-access-required message on 403 is presented only
by the delete-recipe, add-ingredient and delete-ingredient workflows;
the add-recipe and update-recipe workflows present their generic failure
message on 403; the already-exists message on 409 is presented only by
registration, and add-recipe presents its generic message on 409. -/
theorem c4_amended_variant_specific_messages :
    (∀ (st : RecipePageState) (g : FetchResult (List Recipe)) (r : Recipe),
      jsTrim st.deleteRecipeNameInput ≠ "" →
      findRecipeByName st.recipes (jsTrim st.deleteRecipeNameInput) = some r →
      deleteRecipe st (.resp 403 ()) g =
        { st with alerts := st.alerts ++ ["Forbidden: Admin access required"] }) ∧
    (∀ (st : IngredientPageState) (g : FetchResult (List Ingredient)),
      jsTrim st.addIngredientNameInput ≠ "" →
      addIngredient st (.resp 403 ()) g =
        { st with alerts := st.alerts ++ ["Forbidden: Admin access required"] }) ∧
    (∀ (st : IngredientPageState) (g : FetchResult (List Ingredient)) (i : Ingredient),
      jsTrim st.deleteIngredientNameInput ≠ "" →
      findIngredientByName st.ingredients (jsTrim st.deleteIngredientNameInput) = some i →
      deleteIngredient st (.resp 403 ()) g =
        { st with alerts := st.alerts ++ ["Forbidden: Admin access required"] }) ∧
    (∀ (st : RecipePageState) (g : FetchResult (List Recipe)),
      jsTrim st.addRecipeNameInput ≠ "" → jsTrim st.addRecipeInstructionsInput ≠ "" →
      addRecipe st (.resp 403 ()) g =
        { st with alerts := st.alerts ++ ["Failed to add recipe"] }) ∧
    (∀ (st : RecipePageState) (g : FetchResult (List Recipe)) (r : Recipe),
      jsTrim st.updateRecipeNameInput ≠ "" → jsTrim st.updateRecipeInstructionsInput ≠ "" →
      findRecipeByName st.recipes (jsTrim st.updateRecipeNameInput) = some r →
      updateRecipe st (.resp 403 ()) g =
        { st with alerts := st.alerts ++ ["Failed to update recipe"] }) ∧
    (∀ st : RegisterPageState,
      jsTrim st.usernameInput ≠ "" → jsTrim st.emailInput ≠ "" →
      jsTrim st.passwordInput ≠ "" → jsTrim st.repeatPasswordInput ≠ "" →
      jsTrim st.passwordInput = jsTrim st.repeatPasswordInput →
      processRegistration st (.resp 409 ()) =
        { st with alerts := st.alerts ++ ["User or email already exists"] }) ∧
    (∀ (st : RecipePageState) (g : FetchResult (List Recipe)),
      jsTrim st.addRecipeNameInput ≠ "" → jsTrim st.addRecipeInstructionsInput ≠ "" →
      addRecipe st (.resp 409 ()) g =
        { st with alerts := st.alerts ++ ["Failed to add recipe"] }) :=
  ⟨deleteRecipe_403_alert, addIngredient_403_alert, deleteIngredient_403_alert,
   fun st g hn hi => addRecipe_other_alert st g 403 hn hi (by decide) (by decide),
   fun st g r hn hi hf =>
     updateRecipe_other_alert st g r 403 hn hi hf (by decide) (by decide),
   processRegistration_409_alert,
   fun st g hn hi => addRecipe_other_alert st g 409 hn hi (by decide) (by decide)⟩

/-- Witness for C4 amended at the sample authenticated state: a 403 on
deleteRecipe appends exactly the admin-access-required alert. -/
theorem c4_witness :
    deleteRecipe sampleRecipeState (.resp 403 ()) (.resp 200 []) =
      { sampleRecipeState with
          alerts := sampleRecipeState.alerts ++ ["Forbidden: Admin access required"] } :=
  c4_amended_variant_specific_messages.1 sampleRecipeState (.resp 200 [])
    (Recipe.mk 1 "Pasta" "Boil water" "alice") (by decide) (by decide)

theorem jsSplitChars_ne_nil (sep : Char) (cs : List Char) : jsSplitChars sep cs ≠ [] := by
  cases cs with
  | nil => simp [jsSplitChars]
  | cons c cs =>
    unfold jsSplitChars
    split <;> simp

/-- C7 fails on the code: at a concrete state with valid credentials, a
200 login response with an empty body stores the empty string as the
auth token, so the stored token is present and empty. -/
theorem c7_counterexample_empty_body_stores_empty_token :
    (processLogin sampleLoginState (.resp 200 "")).store.authToken = some "" := by
  decide

/-- C7 amended: a successful login stores the first space-separated field
of the 200 body as the token, so whenever that first field is non-empty
the stored token is present and non-empty; an empty body or a body
beginning with a space stores the empty string. -/
theorem c7_amended_login_stores_first_field (st : LoginPageState) (body : String)
    (hu : jsTrim st.usernameInput ≠ "") (hp : jsTrim st.passwordInput ≠ "")
    (hf : (jsSplit ' ' body).headD "" ≠ "") :
    ∃ t, (processLogin st (.resp 200 body)).store.authToken = some t ∧ t ≠ "" := by
  unfold processLogin
  simp only [hu, hp]
  cases hsp : jsSplit ' ' body with
  | nil => exact absurd hsp (jsSplitChars_ne_nil ' ' body.data)
  | cons a l =>
    refine ⟨a, ?_, ?_⟩
    · simp [hu, hp, hsp, setItemCoerce]
    · rw [hsp] at hf
      simpa using hf

/-- Witness for C7 amended at the sample login state with the documented
body shape: the stored token is the non-empty first field. -/
theorem c7_witness :
    ∃ t, (processLogin sampleLoginState (.resp 200 "tok123 true")).store.authToken =
      some t ∧ t ≠ "" :=
  c7_amended_login_stores_first_field sampleLoginState "tok123 true"
    (by decide) (by decide) (by decide)
